import Mathlib

/-!
Verification of the authorization-code exchange and session lifecycle of the
`blid-test` web server (`src/main.rs`, `src/cookie_manager.rs`).

The shallow embedding models:
  * the CSRF State Registry: a `HashSet<String>` behind a mutex, mutated by
    `insert` (registration, `send_spotify_code_request`, main.rs line 203) and
    by `take` (consumption, `send_spotify_token_request`, main.rs line 217).
    Since `HashSet` is an unordered set with no duplicates, it is modelled as
    `Finset String`; each lock-protected operation is one atomic step.
  * the start-login handler `send_spotify_code_request` (main.rs 185-205);
  * the callback handler `send_spotify_token_request` (main.rs 213-256);
  * randomness (`thread_rng`) as an explicit stream `Nat → Fin 62` of draws
    from the 62-symbol alphanumeric alphabet;
  * the provider's token endpoint as an oracle input `ProviderOutcome`
    describing the outcome of the outbound `reqwest` call.
-/

namespace BlidTest

/-- The 62-character alphanumeric alphabet sampled by `rand`'s `Alphanumeric`
distribution (main.rs line 44): uppercase, lowercase, digits. -/
def alphanumChars : List Char :=
  "ABCDEFGHIJKLMNOPQRSTUVWXYZabcdefghijklmnopqrstuvwxyz0123456789".data

theorem alphanumChars_length : alphanumChars.length = 62 := by decide

/-- Look up the `i`-th symbol of the alphanumeric alphabet. -/
def alphanumGet (i : Fin 62) : Char :=
  alphanumChars.get ⟨i.val, by rw [alphanumChars_length]; exact i.isLt⟩

/-- Model of `random_alphanum` (main.rs 42-48): sample `len` draws from the
alphanumeric alphabet and collect them into a string.  The `rand` sampler is
modelled by the explicit stream `rng` of draws. -/
def random_alphanum (rng : Nat → Fin 62) (len : Nat) : String :=
  String.mk ((List.range len).map fun i => alphanumGet (rng i))

/-- Registration of a state token, `s.lock().unwrap().insert(state)`
(main.rs line 203): `HashSet::insert`, i.e. set insertion. -/
def register (s : Finset String) (t : String) : Finset String :=
  insert t s

/-- Consumption of a state token, `s.lock().unwrap().take(&q.state)`
(main.rs line 217): `HashSet::take` removes the token if present; the handler
only observes whether it was present (`is_none`), so the model returns that
boolean together with the updated set. -/
def consume (s : Finset String) (t : String) : Bool × Finset String :=
  if t ∈ s then (true, s.erase t) else (false, s)

theorem consume_mem {s : Finset String} {t : String} (h : t ∈ s) :
    consume s t = (true, s.erase t) := by
  simp [consume, h]

theorem consume_not_mem {s : Finset String} {t : String} (h : t ∉ s) :
    consume s t = (false, s) := by
  simp [consume, h]

/-- Claim C1: a registered state token is single-use.  After `register s t`,
the first `consume` of `t` reports it present and removes it (so `t` is no
longer in the resulting registry), and any later `consume` of `t` against a
registry not containing `t` reports `false` and leaves the registry
unchanged — in particular the call immediately following the first
consumption does. -/
theorem consume_single_use (s : Finset String) (t : String) :
    (consume (register s t) t).1 = true
    ∧ t ∉ (consume (register s t) t).2
    ∧ (∀ s' : Finset String, t ∉ s' → consume s' t = (false, s')) := by
  refine ⟨?_, ?_, ?_⟩
  · simp [consume, register]
  · simp [consume, register, Finset.not_mem_erase]
  · intro s' h
    exact consume_not_mem h

/-- Witness for C1 at the concrete token `"tok"` and the empty registry. -/
theorem consume_single_use_witness :
    (consume (register ∅ "tok") "tok").1 = true
    ∧ "tok" ∉ (consume (register ∅ "tok") "tok").2
    ∧ consume (consume (register ∅ "tok") "tok").2 "tok"
        = (false, (consume (register ∅ "tok") "tok").2) :=
  ⟨(consume_single_use ∅ "tok").1, (consume_single_use ∅ "tok").2.1,
    (consume_single_use ∅ "tok").2.2 _ (consume_single_use ∅ "tok").2.1⟩

/-- Model of `serde_json::Value` (the type the callback handler decodes the
provider's response body into, main.rs line 253).  Numbers are modelled as
integers, which covers every value the claims exercise. -/
inductive Json where
  | str (s : String)
  | num (n : Int)
  | bool (b : Bool)
  | null
  | arr (xs : List Json)
  | obj (fields : List (String × Json))

mutual

/-- Model of the `Debug` rendering `format!("\x7bbody:#?\x7d")` of a
`serde_json::Value` (main.rs line 255), the string the handler sends back to
the browser on success.  Variant tags and payloads follow Rust's derived
`Debug` for `Value`; the newlines and indentation added by the alternate
formatter, and Rust string-literal escaping, are not reproduced (the bodies
exercised contain no characters needing escapes). -/
def jsonDebug : Json → String
  | .str s => "String(\"" ++ s ++ "\")"
  | .num n => "Number(" ++ toString n ++ ")"
  | .bool b => "Bool(" ++ toString b ++ ")"
  | .null => "Null"
  | .arr xs => "Array [" ++ jsonDebugList xs ++ "]"
  | .obj fs => "Object \x7b" ++ jsonDebugFields fs ++ "\x7d"

/-- Comma-separated `Debug` rendering of the elements of a JSON array. -/
def jsonDebugList : List Json → String
  | [] => ""
  | [j] => jsonDebug j
  | j :: rest => jsonDebug j ++ ", " ++ jsonDebugList rest

/-- Comma-separated `Debug` rendering of the fields of a JSON object. -/
def jsonDebugFields : List (String × Json) → String
  | [] => ""
  | [(k, v)] => "\"" ++ k ++ "\": " ++ jsonDebug v
  | (k, v) :: rest => "\"" ++ k ++ "\": " ++ jsonDebug v ++ ", " ++ jsonDebugFields rest

end

/-- The standard base64 alphabet used by `BASE64_STANDARD` (main.rs 239). -/
def base64Alphabet : List Char :=
  "ABCDEFGHIJKLMNOPQRSTUVWXYZabcdefghijklmnopqrstuvwxyz0123456789+/".data

/-- Symbol lookup in the base64 alphabet. -/
def base64Char (n : Nat) : Char := base64Alphabet.getD n 'A'

/-- Standard base64 of a byte sequence, with `=` padding. -/
def base64EncodeBytes : List Nat → List Char
  | [] => []
  | [b1] => [base64Char (b1 / 4), base64Char (b1 % 4 * 16), '=', '=']
  | [b1, b2] =>
      [base64Char (b1 / 4), base64Char (b1 % 4 * 16 + b2 / 16),
       base64Char (b2 % 16 * 4), '=']
  | b1 :: b2 :: b3 :: rest =>
      base64Char (b1 / 4) :: base64Char (b1 % 4 * 16 + b2 / 16) ::
      base64Char (b2 % 16 * 4 + b3 / 64) :: base64Char (b3 % 64) ::
      base64EncodeBytes rest

/-- Model of `BASE64_STANDARD.encode` on an ASCII string (the inputs here are
`client_id:client_secret`, ASCII in any deployment), taking each character's
code point as its byte. -/
def base64Encode (s : String) : String :=
  String.mk (base64EncodeBytes (s.data.map Char.toNat))

/-- The query parameters of the callback request, deserialized by axum into
`SpotifyAuthResponse` (main.rs 207-211). -/
structure SpotifyAuthResponse where
  code : String
  state : String
deriving DecidableEq

/-- Outcome of the outbound `reqwest` call to the provider's token endpoint,
supplied as an oracle input.  `netError` is a failure of `request.send()`
(main.rs 249), carrying the error's display string.  `reply status body` is a
received HTTP response; `body` is the result of `response.json()`
(main.rs 253): the decoded `serde_json::Value`, or the decode error's display
string — `reqwest` decodes the body regardless of `status`. -/
inductive ProviderOutcome where
  | netError (msg : String)
  | reply (status : Nat) (body : Except String Json)

/-- An HTTP response as produced by the two auth handlers: a status code, a
text body, an optional `Set-Cookie` header and an optional redirect
`Location`.  Both handlers build responses from `(StatusCode, String)` or
`Redirect::to`, neither of which sets a cookie, so `setCookie` is `none` on
every path of the embedded code. -/
structure HttpResponse where
  status : Nat
  body : String
  setCookie : Option String
  location : Option String
deriving DecidableEq

/-- The `401 Unauthorized` response of main.rs line 223. -/
def unauthorizedResponse : HttpResponse :=
  { status := 401, body := "Unauthorized", setCookie := none, location := none }

/-- The response produced by `AppError::into_response` (main.rs 52-56):
`500 Internal Server Error` with the error's display string as body. -/
def internalErrorResponse (msg : String) : HttpResponse :=
  { status := 500, body := msg, setCookie := none, location := none }

/-- The configured redirect URI (main.rs 193 and 232). -/
def redirectUriString : String := "http://localhost:3000/auth/callback"

/-- The outbound POST to the provider's token endpoint built at
main.rs 228-245: URL, form parameters (in the sorted key order produced by
serializing the `serde_json` map) and the basic-auth header. -/
structure OutboundTokenRequest where
  url : String
  formParams : List (String × String)
  authorizationHeader : String
deriving DecidableEq

/-- Build the outbound token request for a given configuration and code. -/
def tokenRequest (clientId clientSecret code : String) : OutboundTokenRequest :=
  { url := "https://accounts.spotify.com/api/token",
    formParams :=
      [("code", code), ("grant_type", "authorization_code"),
       ("redirect_uri", redirectUriString)],
    authorizationHeader :=
      "Basic " ++ base64Encode (clientId ++ ":" ++ clientSecret) }

/-- Observable events of one callback invocation, in program order: the
lock-protected `take` on the State Registry, and the outbound call to the
provider (recorded with the registry contents at the moment the call
starts). -/
inductive Event where
  | consumeState (token : String) (found : Bool)
  | providerCall (req : OutboundTokenRequest) (registryAtCall : Finset String)
deriving DecidableEq

/-- Model of the callback handler `send_spotify_token_request`
(main.rs 213-256).  Program order: consume the `state` query parameter from
the registry; if absent, reply `401 Unauthorized` (line 223).  Otherwise
issue the outbound token request; a send failure or a body that fails to
decode propagates through `?` into `AppError`, i.e. a 500 response carrying
the error's display string; a decoded body `j` yields
`(StatusCode::OK, format!("\x7bbody:#?\x7d"))` (line 255).  Returns the
response, the final registry and the event trace. -/
def send_spotify_token_request (clientId clientSecret : String)
    (q : SpotifyAuthResponse) (provider : ProviderOutcome) (s : Finset String) :
    HttpResponse × Finset String × List Event :=
  let c := consume s q.state
  if c.1 = false then
    (unauthorizedResponse, c.2, [Event.consumeState q.state false])
  else
    let req := tokenRequest clientId clientSecret q.code
    let evts := [Event.consumeState q.state true, Event.providerCall req c.2]
    match provider with
    | .netError msg => (internalErrorResponse msg, c.2, evts)
    | .reply _ (.error msg) => (internalErrorResponse msg, c.2, evts)
    | .reply _ (.ok j) =>
        ({ status := 200, body := jsonDebug j, setCookie := none,
           location := none }, c.2, evts)

/-- Claim C3: a callback whose `state` is not in the registry is rejected
with `401 Unauthorized`; the registry is unchanged and the event trace shows
only the failed consumption — in particular no outbound token-exchange
request is issued. -/
theorem callback_unknown_state_unauthorized (clientId clientSecret : String)
    (q : SpotifyAuthResponse) (provider : ProviderOutcome) (s : Finset String)
    (h : q.state ∉ s) :
    send_spotify_token_request clientId clientSecret q provider s
      = (unauthorizedResponse, s, [Event.consumeState q.state false]) := by
  simp [send_spotify_token_request, consume_not_mem h]

/-- Witness for C3: the state `"st"` against the empty registry. -/
theorem callback_unknown_state_unauthorized_witness :
    send_spotify_token_request "id" "secret" ⟨"c", "st"⟩
      (.netError "unreachable") ∅
      = (unauthorizedResponse, ∅, [Event.consumeState "st" false]) :=
  callback_unknown_state_unauthorized "id" "secret" ⟨"c", "st"⟩
    (.netError "unreachable") ∅ (by decide)

/-- Bool-valued check that an event, if it is a provider call, was issued
against the expected registry contents. -/
def eventRegOk (expected : Finset String) : Event → Bool
  | .providerCall _ reg => decide (reg = expected)
  | .consumeState _ _ => true

/-- Claim C10: frame property of one callback invocation.  The registry is
never added to: the final registry is exactly the initial one with the
supplied `state` erased (erasure of an absent element is the identity), hence
a subset of the initial registry; and every outbound provider call in the
trace was issued against the already-erased registry, i.e. the one removal
happens before the token-exchange call begins. -/
theorem callback_registry_frame (clientId clientSecret : String)
    (q : SpotifyAuthResponse) (provider : ProviderOutcome) (s : Finset String) :
    (send_spotify_token_request clientId clientSecret q provider s).2.1
        = s.erase q.state
    ∧ (send_spotify_token_request clientId clientSecret q provider s).2.1 ⊆ s
    ∧ ((send_spotify_token_request clientId clientSecret q provider s).2.2.all
        (eventRegOk (s.erase q.state))) = true := by
  by_cases h : q.state ∈ s
  · refine ⟨?_, ?_, ?_⟩ <;>
      cases provider with
      | netError msg =>
          simp [send_spotify_token_request, consume_mem h, eventRegOk,
            Finset.erase_subset]
      | reply st body =>
          cases body <;>
            simp [send_spotify_token_request, consume_mem h, eventRegOk,
              Finset.erase_subset]
  · have he : s.erase q.state = s := Finset.erase_eq_of_not_mem h
    refine ⟨?_, ?_, ?_⟩ <;>
      simp [send_spotify_token_request, consume_not_mem h, eventRegOk, he]

/-- The provider token body used by the end-to-end scenarios:
`\x7b"access_token":"abc","expires_in":3600,"token_type":"Bearer"\x7d`
(fields in the sorted key order of `serde_json::Value`'s object map). -/
def scenarioTokenBody : Json :=
  Json.obj [("access_token", Json.str "abc"), ("expires_in", Json.num 3600),
    ("token_type", Json.str "Bearer")]

/-- Claim C2 counterexample: a callback with a registered state `"st"` and a
provider reply `200` whose body is the scenario token JSON succeeds with
status `200`, yet the response carries no `Set-Cookie` header and no
redirect: the code has no session layer, so the cookie, the home-route
redirect and the session-store entry demanded by the claim do not exist. -/
theorem callback_success_no_cookie :
    (send_spotify_token_request "id" "secret" ⟨"code", "st"⟩
        (.reply 200 (.ok scenarioTokenBody)) {"st"}).1.status = 200
    ∧ (send_spotify_token_request "id" "secret" ⟨"code", "st"⟩
        (.reply 200 (.ok scenarioTokenBody)) {"st"}).1.setCookie = none
    ∧ (send_spotify_token_request "id" "secret" ⟨"code", "st"⟩
        (.reply 200 (.ok scenarioTokenBody)) {"st"}).1.location = none := by
  refine ⟨rfl, rfl, rfl⟩

/-- Claim C2, amended: a callback with a registered state and a provider
reply whose body decodes as JSON `j` returns `200 OK` with the `Debug`
rendering of `j` as body, sets no cookie and performs no redirect (the code
creates no session), and removes the state token from the registry; the only
outbound call is the token exchange, issued after the removal. -/
theorem callback_success_response (clientId clientSecret : String)
    (q : SpotifyAuthResponse) (st : Nat) (j : Json) (s : Finset String)
    (h : q.state ∈ s) :
    send_spotify_token_request clientId clientSecret q (.reply st (.ok j)) s
      = ({ status := 200, body := jsonDebug j, setCookie := none,
           location := none },
         s.erase q.state,
         [Event.consumeState q.state true,
          Event.providerCall (tokenRequest clientId clientSecret q.code)
            (s.erase q.state)]) := by
  simp [send_spotify_token_request, consume_mem h]

/-- Witness for amended C2, at the scenario inputs. -/
theorem callback_success_response_witness :
    send_spotify_token_request "id" "secret" ⟨"code", "st"⟩
        (.reply 200 (.ok scenarioTokenBody)) {"st"}
      = ({ status := 200, body := jsonDebug scenarioTokenBody,
           setCookie := none, location := none },
         ({"st"} : Finset String).erase "st",
         [Event.consumeState "st" true,
          Event.providerCall (tokenRequest "id" "secret" "code")
            (({"st"} : Finset String).erase "st")]) :=
  callback_success_response "id" "secret" ⟨"code", "st"⟩ 200 scenarioTokenBody
    {"st"} (by decide)

/-- Bool-valued test whether an event is the outbound provider call. -/
def isProviderCall : Event → Bool
  | .providerCall _ _ => true
  | .consumeState _ _ => false

/-- Claim C4 counterexample: a callback with a registered state where the
provider replies with a non-2xx status (`500`) and a JSON-decodable error
body is answered with `200 OK`, not an internal error: the code never
inspects the provider's status code, and it decodes the body into an untyped
`serde_json::Value`, so neither a non-2xx reply nor missing Token Record
fields surface as a failure. -/
theorem callback_non2xx_not_internal_error :
    (send_spotify_token_request "id" "secret" ⟨"code", "st"⟩
        (.reply 500 (.ok (Json.obj [("error", Json.str "invalid_grant")])))
        {"st"}).1.status = 200 := by
  rfl

/-- Claim C4, amended: for a callback with a registered state, a network
failure of the outbound call, or a response body that fails to decode as
JSON, surfaces as a 500 internal error carrying the error's display string;
a reply whose body decodes as JSON yields `200 OK` with the rendered body
regardless of the provider's status code (the code checks neither the status
nor the Token Record fields).  In every case no cookie is set (no session is
created), exactly one outbound call is made (no retry), and the consumed
state token is not restored: the final registry is the initial one with the
token erased, so the token is absent from it. -/
theorem callback_exchange_failure (clientId clientSecret : String)
    (q : SpotifyAuthResponse) (p : ProviderOutcome) (s : Finset String)
    (h : q.state ∈ s) :
    (∀ msg, p = .netError msg →
      (send_spotify_token_request clientId clientSecret q p s).1
        = internalErrorResponse msg)
    ∧ (∀ st msg, p = .reply st (.error msg) →
      (send_spotify_token_request clientId clientSecret q p s).1
        = internalErrorResponse msg)
    ∧ (∀ st j, p = .reply st (.ok j) →
      (send_spotify_token_request clientId clientSecret q p s).1.status = 200
      ∧ (send_spotify_token_request clientId clientSecret q p s).1.body
          = jsonDebug j)
    ∧ (send_spotify_token_request clientId clientSecret q p s).1.setCookie
        = none
    ∧ (send_spotify_token_request clientId clientSecret q p s).2.1
        = s.erase q.state
    ∧ q.state ∉ (send_spotify_token_request clientId clientSecret q p s).2.1
    ∧ ((send_spotify_token_request clientId clientSecret q p s).2.2.countP
        isProviderCall) = 1 := by
  refine ⟨?_, ?_, ?_, ?_, ?_, ?_, ?_⟩ <;>
    cases p with
    | netError msg =>
        simp [send_spotify_token_request, consume_mem h, internalErrorResponse,
          isProviderCall, Finset.not_mem_erase]
    | reply st body =>
        cases body <;>
          simp [send_spotify_token_request, consume_mem h,
            internalErrorResponse, isProviderCall, Finset.not_mem_erase]

/-- Witness for amended C4: a network error at a registered state. -/
theorem callback_exchange_failure_witness :
    (send_spotify_token_request "id" "secret" ⟨"code", "st"⟩
        (.netError "connection refused") {"st"}).1
      = internalErrorResponse "connection refused"
    ∧ (send_spotify_token_request "id" "secret" ⟨"code", "st"⟩
        (.netError "connection refused") {"st"}).1.setCookie = none
    ∧ "st" ∉ (send_spotify_token_request "id" "secret" ⟨"code", "st"⟩
        (.netError "connection refused") {"st"}).2.1
    ∧ ((send_spotify_token_request "id" "secret" ⟨"code", "st"⟩
        (.netError "connection refused") {"st"}).2.2.countP isProviderCall)
        = 1 := by
  have h := callback_exchange_failure "id" "secret" ⟨"code", "st"⟩
    (.netError "connection refused") {"st"} (by decide)
  exact ⟨h.1 "connection refused" rfl, h.2.2.2.1, h.2.2.2.2.2.1, h.2.2.2.2.2.2⟩

/-- Bool-valued check whether `pat` occurs at the head of `l`. -/
def leadsWith : List Char → List Char → Bool
  | [], _ => true
  | _ :: _, [] => false
  | p :: ps, c :: cs => p = c && leadsWith ps cs

/-- Bool-valued check whether `pat` occurs as a contiguous run inside `l`. -/
def occursIn (pat : List Char) : List Char → Bool
  | [] => pat.isEmpty
  | l@(_ :: cs) => leadsWith pat l || occursIn pat cs

/-- Claim C6 counterexample: on the scenario's successful callback the
response body sent to the browser is exactly the `Debug` rendering of the
raw provider token body — it contains the `access_token` field name and the
secret token value `"abc"` itself, so the raw token body is exposed. -/
theorem callback_response_leaks_token_body :
    (send_spotify_token_request "id" "secret" ⟨"code", "st"⟩
        (.reply 200 (.ok scenarioTokenBody)) {"st"}).1.body
      = jsonDebug scenarioTokenBody
    ∧ occursIn "access_token".data
        (send_spotify_token_request "id" "secret" ⟨"code", "st"⟩
          (.reply 200 (.ok scenarioTokenBody)) {"st"}).1.body.data = true
    ∧ occursIn "\"abc\"".data
        (send_spotify_token_request "id" "secret" ⟨"code", "st"⟩
          (.reply 200 (.ok scenarioTokenBody)) {"st"}).1.body.data = true := by
  refine ⟨rfl, by decide, by decide⟩

/-- Claim C6, amended: the client secret never reaches the response — the
HTTP response and the final registry of a callback are unchanged under any
change of the configured client secret, which flows only into the
`Authorization` header of the outbound token request.  The raw provider
token body, however, is exposed: on success the response body is its `Debug`
rendering (see the counterexample). -/
theorem callback_secret_noninterference (clientId sec sec' : String)
    (q : SpotifyAuthResponse) (p : ProviderOutcome) (s : Finset String) :
    (send_spotify_token_request clientId sec q p s).1
      = (send_spotify_token_request clientId sec' q p s).1
    ∧ (send_spotify_token_request clientId sec q p s).2.1
      = (send_spotify_token_request clientId sec' q p s).2.1 := by
  by_cases h : q.state ∈ s
  · cases p with
    | netError msg =>
        simp [send_spotify_token_request, consume_mem h]
    | reply st body =>
        cases body <;> simp [send_spotify_token_request, consume_mem h]
  · simp [send_spotify_token_request, consume_not_mem h]

/-- Hexadecimal digit for percent-encoding. -/
def hexDigit (n : Nat) : Char := "0123456789ABCDEF".data.getD n '0'

/-- Percent-encoding of one ASCII character: unreserved characters pass
through, everything else becomes `%XX` on the character's code point (the
configured values serialized here are ASCII). -/
def percentEncodeChar (c : Char) : List Char :=
  if c.isAlphanum || c = '-' || c = '.' || c = '_' || c = '~' then [c]
  else ['%', hexDigit (c.toNat / 16), hexDigit (c.toNat % 16)]

/-- Percent-encoding of a string, modelling the encoding `serde_qs` applies
to each serialized value (main.rs 189). -/
def percentEncode (s : String) : String :=
  String.mk (s.data.flatMap percentEncodeChar)

/-- The fixed scope string of main.rs line 192. -/
def scopeString : String := "streaming user-read-email user-read-private"

/-- The query parameters serialized by `serde_qs::to_string` at
main.rs 189-195, in the sorted key order of the `serde_json::Value` object
map it serializes from. -/
def authQueryParams (clientId state : String) : List (String × String) :=
  [("client_id", clientId), ("redirect_uri", redirectUriString),
   ("response_type", "code"), ("scope", scopeString), ("state", state)]

/-- Render a parameter list as an `&`-separated query string with
percent-encoded values. -/
def encodeQueryString (ps : List (String × String)) : String :=
  String.intercalate "&" (ps.map fun p => p.1 ++ "=" ++ percentEncode p.2)

/-- The provider authorization URL built by the `Uri` builder at
main.rs 197-201: scheme `https`, authority `accounts.spotify.com`, path
`/authorize/` and the serialized query string. -/
def authorizeUrl (clientId state : String) : String :=
  "https://accounts.spotify.com/authorize/?"
    ++ encodeQueryString (authQueryParams clientId state)

/-- Model of the start-login handler `send_spotify_code_request`
(main.rs 185-205): mint a 16-character state via `random_alphanum`, build
the authorization URL carrying it, insert the state into the registry
(line 203) and reply with a redirect (`Redirect::to`, a 303 response whose
`Location` is the URL). -/
def send_spotify_code_request (clientId : String) (rng : Nat → Fin 62)
    (s : Finset String) : HttpResponse × Finset String :=
  let state := random_alphanum rng 16
  ({ status := 303, body := "", setCookie := none,
     location := some (authorizeUrl clientId state) },
   register s state)

theorem random_alphanum_length (rng : Nat → Fin 62) (len : Nat) :
    (random_alphanum rng len).length = len := by
  simp [random_alphanum, String.length]

theorem alphanumGet_isAlphanum (i : Fin 62) : (alphanumGet i).isAlphanum := by
  have hmem : alphanumGet i ∈ alphanumChars := List.get_mem _ _ _
  have hall : ∀ c ∈ alphanumChars, c.isAlphanum := by decide
  exact hall _ hmem

theorem random_alphanum_isAlphanum (rng : Nat → Fin 62) (len : Nat) :
    ((random_alphanum rng len).data.all Char.isAlphanum) = true := by
  simp only [random_alphanum, List.all_eq_true]
  intro c hc
  simp only [List.mem_map] at hc
  obtain ⟨i, _, rfl⟩ := hc
  exact alphanumGet_isAlphanum _

/-- Claim C5: start-login replies with a redirect (303) to the provider's
authorization URL built over exactly the five query parameters
`response_type=code`, the configured client identifier, the fixed scope
string, the configured redirect URI, and a freshly minted `state` of exactly
16 alphanumeric characters; that exact state value is in the State Registry
when the call returns. -/
theorem start_login_spec (clientId : String) (rng : Nat → Fin 62)
    (s : Finset String) :
    (send_spotify_code_request clientId rng s).1.status = 303
    ∧ (send_spotify_code_request clientId rng s).1.location
        = some (authorizeUrl clientId (random_alphanum rng 16))
    ∧ (random_alphanum rng 16).length = 16
    ∧ ((random_alphanum rng 16).data.all Char.isAlphanum) = true
    ∧ ("response_type", "code")
        ∈ authQueryParams clientId (random_alphanum rng 16)
    ∧ ("client_id", clientId)
        ∈ authQueryParams clientId (random_alphanum rng 16)
    ∧ ("scope", scopeString)
        ∈ authQueryParams clientId (random_alphanum rng 16)
    ∧ ("redirect_uri", redirectUriString)
        ∈ authQueryParams clientId (random_alphanum rng 16)
    ∧ ("state", random_alphanum rng 16)
        ∈ authQueryParams clientId (random_alphanum rng 16)
    ∧ random_alphanum rng 16 ∈ (send_spotify_code_request clientId rng s).2 := by
  refine ⟨rfl, rfl, random_alphanum_length rng 16,
    random_alphanum_isAlphanum rng 16, ?_, ?_, ?_, ?_, ?_, ?_⟩ <;>
    simp [authQueryParams, send_spotify_code_request, register]

/-- One atomic, lock-protected operation on the State Registry.  The mutex
around the `HashSet` (main.rs 186, 215) makes each `insert` and each `take`
a single indivisible step, so an interleaving of concurrent handlers is a
sequence of these operations. -/
inductive RegOp where
  | reg (t : String)
  | cons (t : String)
deriving DecidableEq

/-- Run a schedule of registry operations from an initial registry,
recording for each operation the boolean it reports (`register` reports
nothing; it is recorded as `true`). -/
def runOps (s : Finset String) : List RegOp → List (RegOp × Bool)
  | [] => []
  | RegOp.reg t :: rest => (RegOp.reg t, true) :: runOps (register s t) rest
  | RegOp.cons t :: rest =>
      (RegOp.cons t, (consume s t).1) :: runOps ((consume s t).2) rest

/-- Number of `consume` operations on token `t` in a trace that reported
success. -/
def consumeWins (t : String) : List (RegOp × Bool) → Nat
  | [] => 0
  | (op, b) :: rest =>
      (if op = RegOp.cons t ∧ b = true then 1 else 0) + consumeWins t rest

theorem consume_snd_not_mem {s : Finset String} {t u : String} (hs : t ∉ s) :
    t ∉ (consume s u).2 := by
  by_cases hmem : u ∈ s
  · rw [consume_mem hmem]
    intro h
    exact hs (Finset.mem_of_mem_erase h)
  · rw [consume_not_mem hmem]
    exact hs

theorem consumeWins_zero (t : String) (ops : List RegOp) :
    ∀ s : Finset String, t ∉ s → RegOp.reg t ∉ ops →
      consumeWins t (runOps s ops) = 0 := by
  induction ops with
  | nil => intro s _ _; rfl
  | cons op rest ih =>
      intro s hs hops
      have hrest : RegOp.reg t ∉ rest :=
        fun h => hops (List.mem_cons_of_mem _ h)
      cases op with
      | reg u =>
          have hut : u ≠ t := fun h => hops (by simp [h])
          have hs' : t ∉ register s u := by
            simp only [register, Finset.mem_insert, not_or]
            exact ⟨fun h => hut h.symm, hs⟩
          simp only [runOps, consumeWins, reduceCtorEq, false_and, if_false,
            Nat.zero_add]
          exact ih (register s u) hs' hrest
      | cons u =>
          simp only [runOps, consumeWins]
          have hcond : ¬(RegOp.cons u = RegOp.cons t ∧ (consume s u).1 = true) := by
            rintro ⟨hc, hbt⟩
            have hu : u = t := by injection hc
            subst hu
            rw [consume_not_mem hs] at hbt
            exact Bool.false_ne_true hbt
          rw [if_neg hcond, Nat.zero_add]
          exact ih ((consume s u).2) (consume_snd_not_mem hs) hrest

/-- Claim C7: atomic mutual exclusion of consumption.  For any interleaving
of lock-protected registry operations that does not re-register the token
`t` (each state token is registered exactly once, at mint time), at most one
`consume` of `t` in the whole schedule reports success — in particular two
racing consumers of one token can never both observe it present.  A
successful `consume` removes `t` in the same atomic step in which it
observes it, and no later step restores it. -/
theorem consume_mutual_exclusion (t : String) (ops : List RegOp) :
    ∀ s : Finset String, RegOp.reg t ∉ ops →
      consumeWins t (runOps s ops) ≤ 1 := by
  induction ops with
  | nil => intro s _; exact Nat.zero_le 1
  | cons op rest ih =>
      intro s hops
      have hrest : RegOp.reg t ∉ rest :=
        fun h => hops (List.mem_cons_of_mem _ h)
      cases op with
      | reg u =>
          simp only [runOps, consumeWins, reduceCtorEq, false_and, if_false,
            Nat.zero_add]
          exact ih (register s u) hrest
      | cons u =>
          by_cases hu : u = t
          · subst hu
            by_cases hmem : u ∈ s
            · have h1 : (consume s u).1 = true := by rw [consume_mem hmem]
              have h2 : (consume s u).2 = s.erase u := by rw [consume_mem hmem]
              have hzero : consumeWins u (runOps (s.erase u) rest) = 0 :=
                consumeWins_zero u rest (s.erase u)
                  (Finset.not_mem_erase u s) hrest
              simp only [runOps, consumeWins, h1, h2, hzero]
              simp
            · have h1 : (consume s u).1 = false := by rw [consume_not_mem hmem]
              have h2 : (consume s u).2 = s := by rw [consume_not_mem hmem]
              simp only [runOps, consumeWins, h1, h2, Bool.false_eq_true,
                and_false, if_false, Nat.zero_add]
              exact ih s hrest
          · have hcond : ¬(RegOp.cons u = RegOp.cons t ∧ (consume s u).1 = true) := by
              rintro ⟨hc, _⟩
              exact hu (by injection hc)
            simp only [runOps, consumeWins]
            rw [if_neg hcond, Nat.zero_add]
            exact ih ((consume s u).2) hrest

/-- Witness for C7: two back-to-back consumers of the registered token
`"t"`; the first succeeds and the second fails, so exactly one success. -/
theorem consume_mutual_exclusion_witness :
    consumeWins "t" (runOps {"t"} [RegOp.cons "t", RegOp.cons "t"]) ≤ 1 :=
  consume_mutual_exclusion "t" [RegOp.cons "t", RegOp.cons "t"] {"t"}
    (by decide)

/-- Modelled from the spec: helper for §4.6 session lookup — split a
character sequence at every occurrence of `sep` (the semicolon of a cookie
header), keeping empty segments. -/
def splitOnChar (sep : Char) : List Char → List (List Char)
  | [] => [[]]
  | c :: cs =>
      if c = sep then [] :: splitOnChar sep cs
      else
        match splitOnChar sep cs with
        | [] => [[c]]
        | p :: ps => (c :: p) :: ps

theorem splitOnChar_ne_nil (sep : Char) (l : List Char) :
    splitOnChar sep l ≠ [] := by
  cases l with
  | nil => simp [splitOnChar]
  | cons c cs =>
      by_cases h : c = sep
      · simp [splitOnChar, h]
      · simp only [splitOnChar, if_neg h]
        cases hs : splitOnChar sep cs <;> simp

theorem splitOnChar_cons_sep (sep : Char) (l : List Char) :
    splitOnChar sep (sep :: l) = [] :: splitOnChar sep l := by
  simp [splitOnChar]

theorem splitOnChar_append_not_mem (sep : Char) (xs l : List Char)
    (h : sep ∉ xs) :
    splitOnChar sep (xs ++ l)
      = (xs ++ (splitOnChar sep l).headI) :: (splitOnChar sep l).tail := by
  induction xs with
  | nil =>
      cases hs : splitOnChar sep l with
      | nil => exact absurd hs (splitOnChar_ne_nil sep l)
      | cons p ps => simp [hs]
  | cons c cs ih =>
      have hc : c ≠ sep := fun hh => h (hh ▸ List.mem_cons_self _ _)
      have h' : sep ∉ cs := fun hh => h (List.mem_cons_of_mem _ hh)
      have hstep : splitOnChar sep (c :: (cs ++ l))
          = match splitOnChar sep (cs ++ l) with
            | [] => [[c]]
            | p :: ps => (c :: p) :: ps := by
        simp [splitOnChar, hc]
      rw [List.cons_append, hstep, ih h']
      simp

theorem splitOnChar_not_mem (sep : Char) (l : List Char) (h : sep ∉ l) :
    splitOnChar sep l = [l] := by
  have := splitOnChar_append_not_mem sep l [] h
  simpa [splitOnChar] using this

/-- Modelled from the spec: helper for §4.6 — trim whitespace from both ends
of one `key=value` pair. -/
def trimChars (l : List Char) : List Char :=
  ((l.dropWhile Char.isWhitespace).reverse.dropWhile Char.isWhitespace).reverse

/-- Modelled from the spec: helper for §4.6 — split a pair at the first `=`
into key and value; `none` when no `=` is present. -/
def splitAtEq : List Char → Option (List Char × List Char)
  | [] => none
  | c :: cs =>
      if c = '=' then some ([], cs)
      else (splitAtEq cs).map fun p => (c :: p.1, p.2)

theorem splitAtEq_append (xs ys : List Char) (h : '=' ∉ xs) :
    splitAtEq (xs ++ '=' :: ys) = some (xs, ys) := by
  induction xs with
  | nil => simp [splitAtEq]
  | cons c cs ih =>
      have hc : c ≠ '=' := fun hh => h (hh ▸ List.mem_cons_self _ _)
      have h' : '=' ∉ cs := fun hh => h (List.mem_cons_of_mem _ hh)
      simp [splitAtEq, hc, ih h']

/-- Modelled from the spec: helper for §4.6 — the value a trimmed pair binds
to the key `session_id`, if any. -/
def pairSessionValue (pair : List Char) : Option (List Char) :=
  match splitAtEq (trimChars pair) with
  | some (k, v) => if k = "session_id".data then some v else none
  | none => none

/-- Modelled from the spec: helper for §4.6 — the key of a trimmed pair, if
it has the `key=value` shape. -/
def pairKey (pair : List Char) : Option (List Char) :=
  (splitAtEq (trimChars pair)).map Prod.fst

/-- Modelled from the spec: `extract_session_id` of §4.6, which is absent
from the source (the skeleton `CookieManager::call` in cookie_manager.rs is
`todo!()`): parse a semicolon-delimited `key=value` cookie header, trim
whitespace around each pair, and return the value bound to the key
`session_id`; the first match wins when the key is duplicated. -/
def extract_session_id (raw : String) : Option String :=
  ((splitOnChar ';' raw.data).findSome? pairSessionValue).map String.mk

theorem pairSessionValue_of_key_ne (pair : List Char)
    (h : pairKey pair ≠ some "session_id".data) :
    pairSessionValue pair = none := by
  unfold pairSessionValue
  unfold pairKey at h
  cases hs : splitAtEq (trimChars pair) with
  | none => rfl
  | some kv =>
      obtain ⟨k, v⟩ := kv
      rw [hs] at h
      have hk : k ≠ "session_id".data := by
        intro hh
        exact h (by simp [hh])
      simp [hk]

theorem findSome_cons_none {α β : Type} {f : α → Option β} {a : α}
    {l : List α} (h : f a = none) :
    (a :: l).findSome? f = l.findSome? f := by
  simp [List.findSome?, h]

theorem findSome_cons_some {α β : Type} {f : α → Option β} {a : α}
    {l : List α} {b : β} (h : f a = some b) :
    (a :: l).findSome? f = some b := by
  simp [List.findSome?, h]

theorem findSome_eq_none {α β : Type} (f : α → Option β) (l : List α)
    (h : ∀ x ∈ l, f x = none) : l.findSome? f = none := by
  induction l with
  | nil => rfl
  | cons a rest ih =>
      have ha : f a = none := h a (List.mem_cons_self _ _)
      have hrest : ∀ x ∈ rest, f x = none :=
        fun x hx => h x (List.mem_cons_of_mem _ hx)
      simp [List.findSome?, ha, ih hrest]

theorem trim_session_pair (idl : List Char)
    (hws : ∀ c ∈ idl, ¬ c.isWhitespace) :
    trimChars (' ' :: ("session_id=".data ++ idl)) = "session_id=".data ++ idl := by
  unfold trimChars
  have hlit : ("session_id=".data ++ idl : List Char)
      = 's' :: ("ession_id=".data ++ idl) := rfl
  have h1 : (' ' :: ("session_id=".data ++ idl)).dropWhile Char.isWhitespace
      = "session_id=".data ++ idl := by
    rw [List.dropWhile_cons_of_pos (by decide), hlit,
      List.dropWhile_cons_of_neg (by decide)]
  have h2 : ("session_id=".data ++ idl).reverse.dropWhile Char.isWhitespace
      = ("session_id=".data ++ idl).reverse := by
    rw [List.reverse_append]
    cases hrev : idl.reverse with
    | nil =>
        rw [List.nil_append]
        have hrl : ("session_id=".data.reverse : List Char)
            = '=' :: "di_noisses".data := by decide
        rw [hrl, List.dropWhile_cons_of_neg (by decide)]
    | cons c tl =>
        have hc : c ∈ idl := by
          rw [← List.mem_reverse, hrev]
          exact List.mem_cons_self _ _
        rw [List.cons_append,
          List.dropWhile_cons_of_neg (by simpa using hws c hc)]
  rw [h1, h2, List.reverse_reverse]

theorem session_pair_value (idl : List Char)
    (hws : ∀ c ∈ idl, ¬ c.isWhitespace) :
    pairSessionValue (" session_id=".data ++ idl) = some idl := by
  have hshape : (" session_id=".data ++ idl : List Char)
      = ' ' :: ("session_id=".data ++ idl) := rfl
  rw [pairSessionValue, hshape, trim_session_pair idl hws]
  have hsplit : "session_id=".data ++ idl = "session_id".data ++ '=' :: idl := rfl
  rw [hsplit, splitAtEq_append _ _ (by decide)]
  simp

/-- Claim C9 (spec-modelled: `extract_session_id` is unimplemented in the
source; the model follows §4.6).  For a header `other=1; session_id=<id>;
foo=bar`, where `<id>` contains no semicolon and no whitespace, the result
is `some <id>`; for any header none of whose trimmed pairs has key
`session_id`, the result is `none`; for the empty header the result is
`none`.  No input produces an error: the return type is an `Option`. -/
theorem extract_session_id_spec :
    (∀ id : String, (∀ c ∈ id.data, c ≠ ';' ∧ ¬ c.isWhitespace) →
      extract_session_id ("other=1; session_id=" ++ id ++ "; foo=bar")
        = some id)
    ∧ (∀ raw : String,
        (∀ pair ∈ splitOnChar ';' raw.data,
          pairKey pair ≠ some "session_id".data) →
        extract_session_id raw = none)
    ∧ extract_session_id "" = none := by
  refine ⟨?_, ?_, rfl⟩
  · intro id hid
    obtain ⟨idl⟩ := id
    have hid2 : ∀ c ∈ idl, c ≠ ';' ∧ ¬ c.isWhitespace := hid
    have hdata : ("other=1; session_id=" ++ String.mk idl ++ "; foo=bar" : String).data
        = "other=1".data ++ ';' :: ((" session_id=".data ++ idl) ++ ';' :: " foo=bar".data) := by
      show ("other=1; session_id=".data ++ idl) ++ "; foo=bar".data = _
      have h1 : "other=1; session_id=".data
          = "other=1".data ++ ';' :: " session_id=".data := rfl
      rw [h1]
      simp [List.append_assoc]
    have hA : ';' ∉ "other=1".data := by decide
    have hBid : ';' ∉ " session_id=".data ++ idl := by
      intro hmem
      rcases List.mem_append.mp hmem with h | h
      · revert h; decide
      · exact (hid2 ';' h).1 rfl
    have hC : ';' ∉ " foo=bar".data := by decide
    have hsplit :
        splitOnChar ';' ("other=1".data ++ ';' :: ((" session_id=".data ++ idl) ++ ';' :: " foo=bar".data))
          = ["other=1".data, " session_id=".data ++ idl, " foo=bar".data] := by
      rw [splitOnChar_append_not_mem _ _ _ hA, splitOnChar_cons_sep,
        splitOnChar_append_not_mem _ _ _ hBid, splitOnChar_cons_sep,
        splitOnChar_not_mem _ _ hC]
      simp
    have hpA : pairSessionValue "other=1".data = none := by decide
    have hp2 : pairSessionValue (" session_id=".data ++ idl) = some idl :=
      session_pair_value idl (fun c hc => (hid2 c hc).2)
    rw [extract_session_id, hdata, hsplit, findSome_cons_none hpA,
      findSome_cons_some hp2]
    rfl
  · intro raw hraw
    have : (splitOnChar ';' raw.data).findSome? pairSessionValue = none :=
      findSome_eq_none _ _
        (fun pair hp => pairSessionValue_of_key_ne pair (hraw pair hp))
    simp [extract_session_id, this]

/-- Witness for C9: the scenario header with a concrete 32-character session
identifier, a session-free header, and the empty header. -/
theorem extract_session_id_spec_witness :
    extract_session_id
        ("other=1; session_id=" ++ "A0b1C2d3E4f5G6h7I8j9K0l1M2n3O4p5" ++ "; foo=bar")
      = some "A0b1C2d3E4f5G6h7I8j9K0l1M2n3O4p5"
    ∧ extract_session_id "other=1; foo=bar" = none
    ∧ extract_session_id "" = none :=
  ⟨extract_session_id_spec.1 "A0b1C2d3E4f5G6h7I8j9K0l1M2n3O4p5" (by decide),
   extract_session_id_spec.2.1 "other=1; foo=bar" (by decide),
   extract_session_id_spec.2.2⟩

/-- Claim C8: `register` is idempotent.  Inserting a token that is already
present leaves the registry unchanged; `HashSet::insert` signals no failure
(its ignored return value is the only difference), and neither does the
model, whose type has no error outcome. -/
theorem register_idempotent (s : Finset String) (t : String) (h : t ∈ s) :
    register s t = s := by
  simp [register, Finset.insert_eq_self.mpr h]

/-- Witness for C8: re-registering `"t"` in the singleton registry. -/
theorem register_idempotent_witness :
    register {"t"} "t" = {"t"} :=
  register_idempotent {"t"} "t" (by decide)

end BlidTest
